import Mathlib

/-!
Verification development for the Blender-to-COLMAP rig-derivation core
(`rig_sfm_custom.py` and `export_blender_cameras.py`).

The geometric core is embedded shallowly:

* 4x4 homogeneous world transforms become `Matrix (Fin 4) (Fin 4) ℚ`
  (exact rationals stand in for floats; every algebraic identity claimed
  by the design holds exactly there);
* the Python dict `camera name -> matrix` becomes an association list
  `List (String × Mat4)` whose order models dict insertion order
  (JSON object order);
* `np.linalg.inv` becomes `np_linalg_inv`, which fails exactly where
  numpy raises `LinAlgError` (a singular input) and otherwise returns
  the inverse `inv4` (determinant-scaled adjugate, connected to
  Mathlib's `⁻¹` by `inv4_eq_inv`); `rigBody`/`compute_rig_config`
  give the descriptor value on the non-raising domain, while
  `rigBodyE`/`compute_rig_configE` carry the error paths (including
  the unused line-72 inverse) and agree with them there
  (`compute_rig_configE_eq_ok`);
* Python's `sorted` on strings becomes `List.insertionSort (· ≤ ·)`
  with Mathlib's lexicographic `String` order;
* `pycolmap.RigConfigCamera` keeps its field names, except that its
  `image_prefix` keyword is rendered here as `image_pre`;
* the JSON layer of `load_blender_cameras` is embedded as an abstract
  `Json` value; an unparseable file is `none`, and every uncaught Python
  exception along the loading path (`json.JSONDecodeError`, `KeyError`,
  `TypeError`, and numpy's `ValueError` on a ragged nested sequence,
  modeled through the shape function `npShape`) is the single abstract
  outcome `LoadError.malformedDocument`;
* the directory scan of `run` (lines 149-164) becomes `scan_rig_configs`
  over the enumerated subdirectory list, each subdirectory carrying
  `none` when it has no `cameras.json` and otherwise its loaded camera
  mapping.
-/

abbrev Mat4 := Matrix (Fin 4) (Fin 4) ℚ

abbrev Mat3 := Matrix (Fin 3) (Fin 3) ℚ

/-- `blender_to_colmap_matrix` (rig_sfm_custom.py lines 31-41): the fixed
axis-flip transform `np.diag([1, -1, -1, 1])`. -/
def blender_to_colmap_matrix : Mat4 := Matrix.diagonal ![1, -1, -1, 1]

/-- The coordinate-frame conversion applied at both call sites
(rig_sfm_custom.py lines 71 and 100): `M @ B2C`, the authored world
transform right-multiplied by the axis flip. It is a total function:
the conversion itself has no error path. -/
def convert_world (M : Mat4) : Mat4 := M * blender_to_colmap_matrix

/-- The value `np.linalg.inv` returns when it does not raise:
determinant-reciprocal times adjugate, the exact matrix inverse for
invertible input (see `inv4_eq_inv`).  The raising behavior on a
singular matrix is modeled by `np_linalg_inv`. -/
def inv4 (A : Mat4) : Mat4 := A.det⁻¹ • A.adjugate

/-- `T[:3, :3]` (rig_sfm_custom.py line 111): the upper-left 3x3 block. -/
def rotOf (T : Mat4) : Mat3 := Matrix.of fun i j => T i.castSucc j.castSucc

/-- `T[:3, 3]` (rig_sfm_custom.py line 112): the first three entries of
the rightmost column. -/
def transOf (T : Mat4) : Fin 3 → ℚ := fun i => T i.castSucc 3

/-- `pycolmap.Rigid3d(pycolmap.Rotation3d(R), t)` (line 114): a rigid
transform packaged as a rotation block plus a translation vector. -/
structure Rigid3d where
  rotation : Mat3
  translation : Fin 3 → ℚ

/-- `pycolmap.RigConfigCamera` (lines 123-129). The source keyword
`image_prefix` is rendered as `image_pre`. -/
structure RigConfigCamera where
  ref_sensor : Bool
  image_pre : String
  cam_from_rig : Option Rigid3d

/-- `pycolmap.RigConfig` (line 131). -/
structure RigConfig where
  cameras : List RigConfigCamera

/-- Dict indexing `blender_cameras[name]`. Total stand-in: in
`compute_rig_config` every key looked up is present in the mapping, so
the default value of the missing-key case is never reached there. -/
def lookupMat : List (String × Mat4) → String → Mat4
  | [], _ => 0
  | (k, v) :: rest, n => if k = n then v else lookupMat rest n

/-- Reference selection (rig_sfm_custom.py lines 50-54): keep the
preferred name when present; with an empty mapping return no reference
(the function returns `None`); otherwise fall back to
`list(blender_cameras.keys())[0]`, the first key in insertion order. -/
def selectRef (blender_cameras : List (String × Mat4)) (ref_camera_name : String) : Option String :=
  if ref_camera_name ∈ blender_cameras.map Prod.fst then some ref_camera_name
  else (blender_cameras.map Prod.fst).head?

/-- `sorted(blender_cameras.keys())` (line 80): Python's lexicographic
sort of the camera names. -/
def sortNames (l : List String) : List String := List.insertionSort (fun a b => a ≤ b) l

/-- The body of `compute_rig_config` after a reference `r` has been
settled (rig_sfm_custom.py lines 69-131): convert the reference world
matrix once, then for each camera name in sorted order emit a
`RigConfigCamera` whose prefix is `"<folder>/<camera>/"`; the reference
camera carries `cam_from_rig = None`, every other camera carries
`T_c_r = inv(M_cam_w) @ M_ref_w` decomposed into rotation and
translation.  No validity check of any kind is performed on the
decomposed rotation.  This is the descriptor VALUE on the domain where
every `np.linalg.inv` call succeeds; the error paths — including the
inverse of the reference matrix computed on line 72 and never used —
are carried by `rigBodyE`, which agrees with this function there
(`rigBodyE_eq_ok`). -/
def rigBody (folder_name : String) (blender_cameras : List (String × Mat4)) (r : String) : RigConfig :=
  let M_ref_w := convert_world (lookupMat blender_cameras r)
  { cameras :=
      (sortNames (blender_cameras.map Prod.fst)).map fun cam_name =>
        { ref_sensor := cam_name == r
          image_pre := folder_name ++ "/" ++ cam_name ++ "/"
          cam_from_rig :=
            if cam_name = r then none
            else
              let T_c_r := inv4 (convert_world (lookupMat blender_cameras cam_name)) * M_ref_w
              some { rotation := rotOf T_c_r, translation := transOf T_c_r } } }

/-- `compute_rig_config` (rig_sfm_custom.py lines 42-131): select the
reference (returning `None` for an empty mapping), then build the rig
configuration.  Error-faithful variant: `compute_rig_configE`. -/
def compute_rig_config (folder_name : String) (blender_cameras : List (String × Mat4))
    (ref_camera_name : String) : Option RigConfig :=
  (selectRef blender_cameras ref_camera_name).map (rigBody folder_name blender_cameras)

/-- Abstract JSON value, the parse result of a `cameras.json` document. -/
inductive Json where
  | null : Json
  | bool (b : Bool) : Json
  | num (q : ℚ) : Json
  | str (s : String) : Json
  | arr (elems : List Json) : Json
  | obj (fields : List (String × Json)) : Json

/-- The single abstract failure of the loading path: any uncaught Python
exception while reading `cameras.json` (unparseable document, indexing a
non-dict entry, missing `"matrix_world"` key, or numpy's `ValueError`
on a ragged `"matrix_world"` value). -/
inductive LoadError where
  | malformedDocument : LoadError

/-- Dict indexing `cam_data["matrix_world"]` on a JSON object's fields. -/
def getField : List (String × Json) → String → Option Json
  | [], _ => none
  | (k, v) :: rest, key => if k = key then some v else getField rest key

/-- The `"matrix_world"` field of a camera entry, or `none` when the
entry is not an object or lacks the key (both of which crash the Python
loader). -/
def matrixWorldOf : Json → Option Json
  | Json.obj fields => getField fields "matrix_world"
  | _ => none

mutual

/-- The numpy array shape of a parsed JSON value, or `none` when the
value is an inhomogeneous (ragged) nested sequence that `np.array`
rejects with `ValueError`: a non-array value is a scalar (shape `[]`;
numpy materializes strings, booleans and even dicts as 0-d object
arrays), and an array requires all of its elements to share one common
shape. -/
def npShape : Json → Option (List Nat)
  | Json.arr elems =>
    match npShapes elems with
    | some s => some (elems.length :: s)
    | none => none
  | _ => some []

/-- The common shape of a list of array elements, `none` when they do
not all share one. -/
def npShapes : List Json → Option (List Nat)
  | [] => some []
  | x :: xs =>
    match npShape x, npShapes xs with
    | some s, some t => if xs.isEmpty then some s else if s = t then some s else none
    | _, _ => none

end

/-- `np.array` on a parsed JSON value (rig_sfm_custom.py line 27):
numpy materializes any homogeneous nested sequence, of any shape —
shape-preserving, so the value is kept as the raw JSON — and raises
`ValueError` on an inhomogeneous (ragged) one; `none` models that
raise. -/
def np_array (v : Json) : Option Json :=
  match npShape v with
  | some _ => some v
  | none => none

/-- The loop of `load_blender_cameras` (rig_sfm_custom.py lines 25-29):
`for name, cam_data in data.items(): cameras[name] = np.array(cam_data["matrix_world"])`.
`np.array` accepts any homogeneous value whatever its shape — no 4x4
check of any kind is made — but raises `ValueError` on a ragged nested
sequence (see `np_array`), which aborts the loader like every other
uncaught exception here. -/
def loadEntries : List (String × Json) → Except LoadError (List (String × Json))
  | [] => Except.ok []
  | (name, cam_data) :: rest =>
    match cam_data with
    | Json.obj fields =>
      match getField fields "matrix_world" with
      | some mat =>
        match np_array mat with
        | some arrv => (loadEntries rest).map fun cameras => (name, arrv) :: cameras
        | none => Except.error LoadError.malformedDocument
      | none => Except.error LoadError.malformedDocument
    | _ => Except.error LoadError.malformedDocument

/-- `load_blender_cameras` (rig_sfm_custom.py lines 17-29).  The
argument is `none` when `json.load` fails; a parse that does not yield
an object makes `data.items()` crash. -/
def load_blender_cameras : Option Json → Except LoadError (List (String × Json))
  | some (Json.obj entries) => loadEntries entries
  | _ => Except.error LoadError.malformedDocument

/-- Whether an `Except` outcome is a success. -/
def exceptOk {α : Type} : Except LoadError α → Bool
  | Except.ok _ => true
  | Except.error _ => false

/-- Whether one camera entry loads: it is an object carrying a
`"matrix_world"` key whose value `np.array` accepts. -/
def entryLoads (j : Json) : Bool :=
  match matrixWorldOf j with
  | some mat => (np_array mat).isSome
  | none => false

/-- Whether a JSON value is a number. -/
def isNumJson : Json → Bool
  | Json.num _ => true
  | _ => false

/-- Modelled from the spec: the shape-validation predicate the spec
claims for the parser, "16 numeric entries reshaped row-major into
4x4" as serialized by the exporter (four rows of four numbers).  The
source parser contains no such check; this definition exists only to
state that discrepancy. -/
def is4x4Shaped : Json → Bool
  | Json.arr rows =>
      rows.length == 4 && rows.all fun row =>
        match row with
        | Json.arr entries => entries.length == 4 && entries.all isNumJson
        | _ => false
  | _ => false

/-- The scanning loop of `run` (rig_sfm_custom.py lines 149-164): the
subdirectories are taken in the enumeration order of `input_path.iterdir()`
(no sorting is applied); a subdirectory without `cameras.json` is
skipped with a warning; otherwise its loaded camera mapping is fed to
`compute_rig_config` with the default reference name `"Camera0"`, and a
produced configuration is appended.  Each list element is a
subdirectory name together with `none` (no `cameras.json`) or its
loaded camera mapping. -/
def scan_rig_configs (dirs : List (String × Option (List (String × Mat4)))) : List RigConfig :=
  dirs.filterMap fun p =>
    match p.2 with
    | none => none
    | some blender_cameras => compute_rig_config p.1 blender_cameras "Camera0"

/-- The exception `np.linalg.inv` raises on a singular matrix. -/
inductive LinAlgError where
  | singularMatrix : LinAlgError

/-- `np.linalg.inv` with its error path: raises exactly on a singular
matrix, otherwise returns the inverse (`inv4`). -/
def np_linalg_inv (A : Mat4) : Except LinAlgError Mat4 :=
  if A.det = 0 then Except.error LinAlgError.singularMatrix else Except.ok (inv4 A)

/-- The per-camera loop of `compute_rig_config` (lines 82-129) with the
`np.linalg.inv` error path kept: a singular converted matrix of a
non-reference camera aborts the whole computation, as the uncaught
`LinAlgError` of line 101 would. -/
def rigCamerasE (folder_name : String) (blender_cameras : List (String × Mat4)) (r : String)
    (M_ref_w : Mat4) : List String → Except LinAlgError (List RigConfigCamera)
  | [] => Except.ok []
  | cam_name :: rest =>
    if cam_name = r then
      (rigCamerasE folder_name blender_cameras r M_ref_w rest).map fun tl =>
        { ref_sensor := cam_name == r
          image_pre := folder_name ++ "/" ++ cam_name ++ "/"
          cam_from_rig := none } :: tl
    else
      match np_linalg_inv (convert_world (lookupMat blender_cameras cam_name)) with
      | Except.ok M_cam_w_inv =>
        (rigCamerasE folder_name blender_cameras r M_ref_w rest).map fun tl =>
          { ref_sensor := cam_name == r
            image_pre := folder_name ++ "/" ++ cam_name ++ "/"
            cam_from_rig := some { rotation := rotOf (M_cam_w_inv * M_ref_w)
                                   translation := transOf (M_cam_w_inv * M_ref_w) } } :: tl
      | Except.error e => Except.error e

/-- The body of `compute_rig_config` with the `np.linalg.inv` error
paths kept (rig_sfm_custom.py lines 69-131): line 72 inverts the
converted reference matrix — its result is never used, but a singular
reference still raises — then the per-camera loop runs.  On the
non-raising domain this agrees with `rigBody` (`rigBodyE_eq_ok`). -/
def rigBodyE (folder_name : String) (blender_cameras : List (String × Mat4)) (r : String) :
    Except LinAlgError RigConfig :=
  let M_ref_w := convert_world (lookupMat blender_cameras r)
  match np_linalg_inv M_ref_w with
  | Except.error e => Except.error e
  | Except.ok _M_ref_w_inv =>
    (rigCamerasE folder_name blender_cameras r M_ref_w
      (sortNames (blender_cameras.map Prod.fst))).map fun cams => { cameras := cams }

/-- `compute_rig_config` with the `np.linalg.inv` error paths kept:
`Except.ok none` is the Python `return None` on an empty mapping,
`Except.error` the uncaught `LinAlgError` on a singular matrix. -/
def compute_rig_configE (folder_name : String) (blender_cameras : List (String × Mat4))
    (ref_camera_name : String) : Except LinAlgError (Option RigConfig) :=
  match selectRef blender_cameras ref_camera_name with
  | none => Except.ok none
  | some r => (rigBodyE folder_name blender_cameras r).map some

/-! ### Helper lemmas -/

/-- The axis flip composed with itself is the identity. -/
theorem B2C_mul_self : blender_to_colmap_matrix * blender_to_colmap_matrix = 1 := by
  rw [blender_to_colmap_matrix, Matrix.diagonal_mul_diagonal]
  rw [congrArg Matrix.diagonal
    (show (fun i => (![(1 : ℚ), -1, -1, 1]) i * (![(1 : ℚ), -1, -1, 1]) i) = fun _ => (1 : ℚ) from by
      funext i; fin_cases i <;> norm_num)]
  exact Matrix.diagonal_one

/-- `inv4` is Mathlib's matrix inverse. -/
theorem inv4_eq_inv (A : Mat4) : inv4 A = A⁻¹ := by
  rw [Matrix.inv_def, inv4, Ring.inverse_eq_inv]

/-- A right inverse determines `inv4`. -/
theorem inv4_eq_of_mul_eq_one {A B : Mat4} (h : A * B = 1) : inv4 A = B := by
  rw [inv4_eq_inv]; exact Matrix.inv_eq_right_inv h

/-- On a mapping with distinct keys, `lookupMat` returns the stored value. -/
theorem lookupMat_eq_of_mem {cams : List (String × Mat4)} {n : String} {M : Mat4}
    (hnd : (cams.map Prod.fst).Nodup) (h : (n, M) ∈ cams) : lookupMat cams n = M := by
  induction cams with
  | nil => cases h
  | cons a rest ih =>
    obtain ⟨k, v⟩ := a
    rcases List.mem_cons.mp h with heq | hmem
    · rw [show k = n from (Prod.mk.injEq _ _ _ _ ▸ heq.symm).1,
        show v = M from (Prod.mk.injEq _ _ _ _ ▸ heq.symm).2]
      simp [lookupMat]
    · have hk : k ∉ rest.map Prod.fst := (List.nodup_cons.mp hnd).1
      have hkn : k ≠ n := by
        intro he
        exact hk (he ▸ List.mem_map_of_mem Prod.fst hmem)
      rw [lookupMat, if_neg hkn]
      exact ih (List.nodup_cons.mp hnd).2 hmem

/-- A non-empty mapping always yields a selected reference, and the
selected reference is one of the mapping's keys. -/
theorem selectRef_mem (cams : List (String × Mat4)) (pref : String) (hne : cams ≠ []) :
    ∃ r, selectRef cams pref = some r ∧ r ∈ cams.map Prod.fst := by
  by_cases h : pref ∈ cams.map Prod.fst
  · exact ⟨pref, by rw [selectRef, if_pos h], h⟩
  · cases cams with
    | nil => exact absurd rfl hne
    | cons a l =>
      refine ⟨a.1, ?_, by simp⟩
      rw [selectRef, if_neg h]
      rfl

/-- `Except.map` preserves success. -/
theorem exceptOk_map {α β : Type} (f : α → β) (e : Except LoadError α) :
    exceptOk (e.map f) = exceptOk e := by
  cases e <;> rfl

/-- One step of the loading loop, phrased through `matrixWorldOf`. -/
theorem loadEntries_cons (p : String × Json) (rest : List (String × Json)) :
    loadEntries (p :: rest) =
      match matrixWorldOf p.2 with
      | some mat =>
        match np_array mat with
        | some arrv => (loadEntries rest).map fun cameras => (p.1, arrv) :: cameras
        | none => Except.error LoadError.malformedDocument
      | none => Except.error LoadError.malformedDocument := by
  obtain ⟨n, j⟩ := p
  cases j <;> rfl

/-- The loading loop succeeds exactly when every entry is an object
carrying a `"matrix_world"` field whose value `np.array` accepts. -/
theorem loadEntries_isOk (es : List (String × Json)) :
    exceptOk (loadEntries es) = es.all fun p => entryLoads p.2 := by
  induction es with
  | nil => rfl
  | cons p rest ih =>
    rw [loadEntries_cons, List.all_cons, ← ih]
    cases h : matrixWorldOf p.2 with
    | none => simp [entryLoads, h, exceptOk]
    | some m =>
      cases ha : np_array m with
      | none => simp [entryLoads, h, ha, exceptOk]
      | some a => simp [entryLoads, h, ha, exceptOk_map]

/-- A selected reference is a key of the mapping. -/
theorem selectRef_eq_some_mem {cams : List (String × Mat4)} {pref r : String}
    (h : selectRef cams pref = some r) : r ∈ cams.map Prod.fst := by
  rw [selectRef] at h
  by_cases hp : pref ∈ cams.map Prod.fst
  · rw [if_pos hp] at h
    cases h
    exact hp
  · rw [if_neg hp] at h
    cases cams with
    | nil => cases h
    | cons a l =>
      cases h
      exact List.mem_map_of_mem Prod.fst (List.mem_cons_self a l)

/-- When every matrix to invert is invertible, the error-faithful
per-camera loop succeeds and produces exactly the entries of the pure
descriptor body. -/
theorem rigCamerasE_ok (folder_name : String) (cams : List (String × Mat4)) (r : String)
    (M_ref_w : Mat4) (names : List String)
    (h : ∀ n ∈ names, (convert_world (lookupMat cams n)).det ≠ 0) :
    rigCamerasE folder_name cams r M_ref_w names =
      Except.ok (names.map fun cam_name =>
        { ref_sensor := cam_name == r
          image_pre := folder_name ++ "/" ++ cam_name ++ "/"
          cam_from_rig :=
            if cam_name = r then none
            else
              some { rotation := rotOf (inv4 (convert_world (lookupMat cams cam_name)) * M_ref_w)
                     translation :=
                       transOf (inv4 (convert_world (lookupMat cams cam_name)) * M_ref_w) } }) := by
  induction names with
  | nil => rfl
  | cons a rest ih =>
    have ha := h a (List.mem_cons_self a rest)
    have hrest := ih fun n hn => h n (List.mem_cons_of_mem a hn)
    by_cases har : a = r
    · rw [rigCamerasE, if_pos har, hrest]
      simp [har, Except.map]
    · rw [rigCamerasE, if_neg har, np_linalg_inv, if_neg ha, hrest]
      simp [har, Except.map]

set_option maxHeartbeats 1000000 in
/-- When every converted camera matrix of the mapping is invertible,
the error-faithful body agrees with the pure one. -/
theorem rigBodyE_eq_ok (folder_name : String) (cams : List (String × Mat4)) (r : String)
    (hr : r ∈ cams.map Prod.fst)
    (hall : ∀ n ∈ cams.map Prod.fst, (convert_world (lookupMat cams n)).det ≠ 0) :
    rigBodyE folder_name cams r = Except.ok (rigBody folder_name cams r) := by
  have href : (convert_world (lookupMat cams r)).det ≠ 0 := hall r hr
  have hnames : ∀ n ∈ sortNames (cams.map Prod.fst),
      (convert_world (lookupMat cams n)).det ≠ 0 := by
    intro n hn
    rw [sortNames] at hn
    exact hall n ((List.perm_insertionSort _ _).mem_iff.mp hn)
  have hmatch : np_linalg_inv (convert_world (lookupMat cams r)) =
      Except.ok (inv4 (convert_world (lookupMat cams r))) := by
    rw [np_linalg_inv, if_neg href]
  simp only [rigBodyE, hmatch, rigCamerasE_ok folder_name cams r _ _ hnames, Except.map, rigBody]

/-- When every converted camera matrix of the mapping is invertible,
the error-faithful rig computation agrees with the pure one. -/
theorem compute_rig_configE_eq_ok (folder pref : String) (cams : List (String × Mat4))
    (hall : ∀ n ∈ cams.map Prod.fst, (convert_world (lookupMat cams n)).det ≠ 0) :
    compute_rig_configE folder cams pref = Except.ok (compute_rig_config folder cams pref) := by
  cases h : selectRef cams pref with
  | none => simp only [compute_rig_configE, compute_rig_config, h, Option.map]
  | some r =>
    simp only [compute_rig_configE, compute_rig_config, h, Option.map]
    rw [rigBodyE_eq_ok folder cams r (selectRef_eq_some_mem h) hall]
    rfl

/-! ### C2 — the coordinate-frame conversion -/

/-- C2: the conversion applied to every camera before rig derivation is
exactly `M` right-multiplied by `diag(1, -1, -1, 1)`; entrywise, column
`j` of `M` is scaled by the `j`-th diagonal entry.  (`convert_world` is
a total function, so the conversion has no error path of its own.) -/
theorem C2_conversion_is_right_flip (M : Mat4) :
    convert_world M = M * Matrix.diagonal ![1, -1, -1, 1] ∧
    ∀ i j, convert_world M i j = M i j * (![(1 : ℚ), -1, -1, 1]) j := by
  refine ⟨rfl, fun i j => ?_⟩
  rw [convert_world, blender_to_colmap_matrix, Matrix.mul_diagonal]

/-! ### C6 — the conversion is an involution -/

/-- C6: applying the coordinate-frame conversion twice returns the
original transform (exactly, in the rational embedding), because the
axis-flip matrix is its own inverse. -/
theorem C6_conversion_involution (M : Mat4) : convert_world (convert_world M) = M := by
  rw [convert_world, convert_world, mul_assoc, B2C_mul_self, mul_one]

/-! ### C1 — the stored rig-relative transform -/

/-- C1: for a mapping with distinct camera names, every non-reference
camera `c` (with authored transform `M_c`, so converted transform
`convert_world M_c`) is stored in the produced descriptor with
`cam_from_rig` equal to `T = inv(convert_world M_c) * convert_world M_r`:
rotation the upper-left 3x3 block of `T` and translation the first
three entries of the rightmost column of `T`, where `M_r` is the
reference camera's authored transform. -/
theorem C1_rig_relative_transform
    (folder pref r c : String) (cams : List (String × Mat4)) (M_c M_r : Mat4) (cfg : RigConfig)
    (hnd : (cams.map Prod.fst).Nodup)
    (hsel : selectRef cams pref = some r)
    (hcfg : compute_rig_config folder cams pref = some cfg)
    (hrm : (r, M_r) ∈ cams)
    (hcm : (c, M_c) ∈ cams)
    (hcr : c ≠ r) :
    { ref_sensor := false
      image_pre := folder ++ "/" ++ c ++ "/"
      cam_from_rig := some
        { rotation := rotOf (inv4 (convert_world M_c) * convert_world M_r)
          translation := transOf (inv4 (convert_world M_c) * convert_world M_r) } } ∈
      cfg.cameras := by
  have hcfg' : cfg = rigBody folder cams r := by
    rw [compute_rig_config, hsel] at hcfg
    exact (Option.some.inj hcfg).symm
  subst hcfg'
  have hkey : c ∈ cams.map Prod.fst := List.mem_map_of_mem Prod.fst hcm
  have hsmem : c ∈ sortNames (cams.map Prod.fst) :=
    ((List.perm_insertionSort _ _).mem_iff).mpr hkey
  have hlc : lookupMat cams c = M_c := lookupMat_eq_of_mem hnd hcm
  have hlr : lookupMat cams r = M_r := lookupMat_eq_of_mem hnd hrm
  simp only [rigBody]
  rw [List.mem_map]
  refine ⟨c, hsmem, ?_⟩
  rw [hlc, hlr, if_neg hcr]
  simp [beq_eq_false_iff_ne.mpr hcr]

/-- C1 witness: a concrete two-camera session. -/
theorem C1_rig_relative_transform_witness :
    { ref_sensor := false
      image_pre := "sess" ++ "/" ++ "Camera1" ++ "/"
      cam_from_rig := some
        { rotation := rotOf (inv4 (convert_world (1 : Mat4)) * convert_world (1 : Mat4))
          translation := transOf (inv4 (convert_world (1 : Mat4)) * convert_world (1 : Mat4)) } } ∈
      (rigBody "sess" [("Camera0", (1 : Mat4)), ("Camera1", (1 : Mat4))] "Camera0").cameras :=
  C1_rig_relative_transform "sess" "Camera0" "Camera0" "Camera1"
    [("Camera0", (1 : Mat4)), ("Camera1", (1 : Mat4))] 1 1
    (rigBody "sess" [("Camera0", (1 : Mat4)), ("Camera1", (1 : Mat4))] "Camera0")
    (by decide) rfl rfl (List.Mem.head _) (List.Mem.tail _ (List.Mem.head _)) (by decide)

/-! ### C3 — the missing-reference fallback -/

/-- C3 counterexample: with the mapping inserted in the order
`["B", "A"]` and `"Camera0"` absent, the code selects `"B"` (the first
key in insertion order), while the lexicographically smallest name
present is `"A"`.  The claim that the fallback is the lexicographically
smallest name is therefore false. -/
theorem C3_fallback_not_lex_smallest :
    selectRef [("B", (1 : Mat4)), ("A", 1)] "Camera0" = some "B" ∧
    (sortNames ["B", "A"]).head? = some "A" ∧
    ("B" : String) ≠ "A" := by
  refine ⟨rfl, ?_, by decide⟩
  have hBA : ¬ (("B" : String) ≤ "A") := by
    rw [String.le_iff_toList_le]; decide
  simp [sortNames, List.insertionSort, List.orderedInsert, hBA]

/-- C3 amended: when the preferred reference name is absent from a
non-empty mapping, the selected reference is the FIRST key in the
mapping's insertion order (`list(blender_cameras.keys())[0]`), not the
lexicographically smallest one. -/
theorem C3_fallback_is_first_key (cams : List (String × Mat4)) (pref : String)
    (hne : cams ≠ []) (habs : pref ∉ cams.map Prod.fst) :
    selectRef cams pref = some ((cams.head hne).1) := by
  cases cams with
  | nil => exact absurd rfl hne
  | cons a l =>
    rw [selectRef, if_neg habs]
    rfl

/-- C3 amended witness. -/
theorem C3_fallback_is_first_key_witness :
    selectRef [("B", (1 : Mat4)), ("A", 1)] "ref" = some "B" :=
  C3_fallback_is_first_key [("B", (1 : Mat4)), ("A", 1)] "ref"
    (List.cons_ne_nil _ _) (by decide)

/-! ### C7 — exactly one reference entry -/

/-- C7: for every non-empty mapping with distinct camera names, the
produced descriptor has exactly one entry marked as reference; that
entry carries no relative transform (`cam_from_rig = none`, the
special-cased identity), and every non-reference entry carries an
explicit transform. -/
theorem C7_unique_reference (folder pref : String) (cams : List (String × Mat4))
    (hne : cams ≠ []) (hnd : (cams.map Prod.fst).Nodup) :
    ∃ cfg, compute_rig_config folder cams pref = some cfg ∧
      cfg.cameras.countP (fun e => e.ref_sensor) = 1 ∧
      ∀ e ∈ cfg.cameras,
        (e.ref_sensor = true → e.cam_from_rig = none) ∧
        (e.ref_sensor = false → e.cam_from_rig.isSome = true) := by
  obtain ⟨r, hsel, hrmem⟩ := selectRef_mem cams pref hne
  refine ⟨rigBody folder cams r, by rw [compute_rig_config, hsel]; rfl, ?_, ?_⟩
  · simp only [rigBody]
    rw [List.countP_map]
    have hc : List.countP
        ((fun e : RigConfigCamera => e.ref_sensor) ∘ fun cam_name =>
          { ref_sensor := cam_name == r
            image_pre := folder ++ "/" ++ cam_name ++ "/"
            cam_from_rig :=
              if cam_name = r then none
              else
                some { rotation := rotOf (inv4 (convert_world (lookupMat cams cam_name)) *
                          convert_world (lookupMat cams r))
                       translation := transOf (inv4 (convert_world (lookupMat cams cam_name)) *
                          convert_world (lookupMat cams r)) } })
        (sortNames (cams.map Prod.fst)) =
        (sortNames (cams.map Prod.fst)).count r := rfl
    rw [hc, sortNames, (List.perm_insertionSort _ _).count_eq]
    exact List.count_eq_one_of_mem hnd hrmem
  · intro e he
    simp only [rigBody] at he
    obtain ⟨n, _, rfl⟩ := List.mem_map.mp he
    constructor
    · intro ht
      have hn : n = r := by
        have := ht
        simp only at this
        exact beq_iff_eq.mp this
      simp [if_pos hn]
    · intro hf
      have hn : n ≠ r := by
        have := hf
        simp only at this
        exact beq_eq_false_iff_ne.mp this
      simp [if_neg hn]

/-- C7 witness: a concrete two-camera session. -/
theorem C7_unique_reference_witness :
    ∃ cfg, compute_rig_config "sess" [("Camera0", (1 : Mat4)), ("Camera1", (1 : Mat4))] "Camera0" =
        some cfg ∧
      cfg.cameras.countP (fun e => e.ref_sensor) = 1 ∧
      ∀ e ∈ cfg.cameras,
        (e.ref_sensor = true → e.cam_from_rig = none) ∧
        (e.ref_sensor = false → e.cam_from_rig.isSome = true) :=
  C7_unique_reference "sess" "Camera0" [("Camera0", (1 : Mat4)), ("Camera1", (1 : Mat4))]
    (List.cons_ne_nil _ _) (by decide)

/-! ### C5 — determinism under input (insertion) order -/

/-- C5 counterexample: two mappings with the same name-to-transform
contents (a permutation of each other) but different insertion orders,
neither containing the preferred name `"Camera0"`.  The two runs select
DIFFERENT reference cameras and produce different descriptors (the
reference flag sits on a different camera), so rig derivation is not
independent of input ordering. -/
theorem C5_order_dependence_cex :
    List.Perm [("A", (1 : Mat4)), ("B", (1 : Mat4))] [("B", (1 : Mat4)), ("A", (1 : Mat4))] ∧
    selectRef [("A", (1 : Mat4)), ("B", (1 : Mat4))] "Camera0" = some "A" ∧
    selectRef [("B", (1 : Mat4)), ("A", (1 : Mat4))] "Camera0" = some "B" ∧
    ((compute_rig_config "s" [("A", (1 : Mat4)), ("B", (1 : Mat4))] "Camera0").map fun cfg =>
        cfg.cameras.map fun e => (e.image_pre, e.ref_sensor)) =
      some [("s/A/", true), ("s/B/", false)] ∧
    ((compute_rig_config "s" [("B", (1 : Mat4)), ("A", (1 : Mat4))] "Camera0").map fun cfg =>
        cfg.cameras.map fun e => (e.image_pre, e.ref_sensor)) =
      some [("s/A/", false), ("s/B/", true)] := by
  have hAB : ("A" : String) ≤ "B" := by rw [String.le_iff_toList_le]; decide
  have hBA : ¬ (("B" : String) ≤ "A") := by rw [String.le_iff_toList_le]; decide
  have hs₁ : sortNames ["A", "B"] = ["A", "B"] := by
    simp [sortNames, List.insertionSort, List.orderedInsert, hAB]
  have hs₂ : sortNames ["B", "A"] = ["A", "B"] := by
    simp [sortNames, List.insertionSort, List.orderedInsert, hBA]
  refine ⟨List.Perm.swap ("B", (1 : Mat4)) ("A", (1 : Mat4)) [], rfl, rfl, ?_, ?_⟩
  · simp only [compute_rig_config]
    rw [show selectRef [("A", (1 : Mat4)), ("B", (1 : Mat4))] "Camera0" = some "A" from rfl]
    simp only [Option.map]
    simp only [rigBody]
    rw [show ([("A", (1 : Mat4)), ("B", (1 : Mat4))].map Prod.fst) = ["A", "B"] from rfl, hs₁]
    rfl
  · simp only [compute_rig_config]
    rw [show selectRef [("B", (1 : Mat4)), ("A", (1 : Mat4))] "Camera0" = some "B" from rfl]
    simp only [Option.map]
    simp only [rigBody]
    rw [show ([("B", (1 : Mat4)), ("A", (1 : Mat4))].map Prod.fst) = ["B", "A"] from rfl, hs₂]
    rfl

/-- C5 amended: when the preferred reference name IS present in the
mapping, rig derivation is insensitive to insertion order: any
permutation of a mapping with distinct camera names yields the very
same descriptor (same camera order, same prefixes, same transforms).
(Without the preferred name, the fallback depends on insertion order,
see the counterexample.) -/
theorem C5_determinism_with_preferred_ref (folder pref : String)
    (cams₁ cams₂ : List (String × Mat4))
    (hperm : List.Perm cams₁ cams₂)
    (hnd : (cams₁.map Prod.fst).Nodup)
    (hpref : pref ∈ cams₁.map Prod.fst) :
    compute_rig_config folder cams₁ pref = compute_rig_config folder cams₂ pref := by
  have hkeys : List.Perm (cams₁.map Prod.fst) (cams₂.map Prod.fst) := hperm.map Prod.fst
  have hnd₂ : (cams₂.map Prod.fst).Nodup := hkeys.nodup_iff.mp hnd
  have hpref₂ : pref ∈ cams₂.map Prod.fst := hkeys.mem_iff.mp hpref
  have hsel₁ : selectRef cams₁ pref = some pref := by rw [selectRef, if_pos hpref]
  have hsel₂ : selectRef cams₂ pref = some pref := by rw [selectRef, if_pos hpref₂]
  have hlook : ∀ n ∈ cams₁.map Prod.fst, lookupMat cams₁ n = lookupMat cams₂ n := by
    intro n hn
    obtain ⟨⟨n', M⟩, hmem, he⟩ := List.mem_map.mp hn
    cases he
    rw [lookupMat_eq_of_mem hnd hmem, lookupMat_eq_of_mem hnd₂ (hperm.mem_iff.mp hmem)]
  have hsort : sortNames (cams₁.map Prod.fst) = sortNames (cams₂.map Prod.fst) :=
    List.eq_of_perm_of_sorted
      ((List.perm_insertionSort _ _).trans (hkeys.trans (List.perm_insertionSort _ _).symm))
      (List.sorted_insertionSort _ _) (List.sorted_insertionSort _ _)
  rw [compute_rig_config, compute_rig_config, hsel₁, hsel₂]
  simp only [Option.map]
  simp only [rigBody]
  rw [← hsort, hlook pref hpref]
  refine congrArg (fun cs => some (RigConfig.mk cs)) ?_
  apply List.map_congr_left
  intro n hn
  have hnk : n ∈ cams₁.map Prod.fst := by
    rw [sortNames] at hn
    exact (List.perm_insertionSort _ _).mem_iff.mp hn
  rw [hlook n hnk]

/-- C5 amended witness: a concrete permuted pair of mappings containing
the preferred reference. -/
theorem C5_determinism_with_preferred_ref_witness :
    compute_rig_config "s" [("Camera0", (1 : Mat4)), ("A", (1 : Mat4))] "Camera0" =
      compute_rig_config "s" [("A", (1 : Mat4)), ("Camera0", (1 : Mat4))] "Camera0" :=
  C5_determinism_with_preferred_ref "s" "Camera0"
    [("Camera0", (1 : Mat4)), ("A", (1 : Mat4))] [("A", (1 : Mat4)), ("Camera0", (1 : Mat4))]
    (List.Perm.swap ("A", (1 : Mat4)) ("Camera0", (1 : Mat4)) []) (by decide) (by decide)

/-! ### C4 — no geometric validity check -/

/-- C4 counterexample: a session whose camera `"Camera1"` has an
improper rig-relative rotation (determinant −1: the authored transform
`diag(-1, 1, 1, 1)` is a mirror).  The produced descriptor nevertheless
INCLUDES that camera, packaged with the improper rotation — no
determinant or orthonormality check exists on lines 108-129 of the
source, so no camera is ever excluded and no `InvalidPoseGeometry`
condition is ever signalled. -/
theorem C4_improper_rotation_included_cex :
    ((compute_rig_config "s"
        [("Camera0", (1 : Mat4)), ("Camera1", Matrix.diagonal ![-1, 1, 1, 1])] "Camera0").map
      fun cfg => cfg.cameras.map fun e => (e.ref_sensor, e.cam_from_rig)) =
      some [(true, none),
            (false, some { rotation := Matrix.diagonal ![-1, 1, 1],
                           translation := ![0, 0, 0] })] ∧
    (Matrix.diagonal ![(-1 : ℚ), 1, 1]).det = -1 := by
  have h01 : ("Camera0" : String) ≤ "Camera1" := by
    rw [String.le_iff_toList_le]; decide
  have hsort : sortNames ["Camera0", "Camera1"] = ["Camera0", "Camera1"] := by
    simp [sortNames, List.insertionSort, List.orderedInsert, h01]
  have hM1B : Matrix.diagonal ![(-1 : ℚ), 1, 1, 1] * blender_to_colmap_matrix =
      Matrix.diagonal ![(-1 : ℚ), -1, -1, 1] := by
    rw [blender_to_colmap_matrix, Matrix.diagonal_mul_diagonal]
    exact congrArg Matrix.diagonal (by funext i; fin_cases i <;> norm_num)
  have hNN : Matrix.diagonal ![(-1 : ℚ), -1, -1, 1] * Matrix.diagonal ![(-1 : ℚ), -1, -1, 1] = 1 := by
    rw [Matrix.diagonal_mul_diagonal]
    rw [congrArg Matrix.diagonal
      (show (fun i => (![(-1 : ℚ), -1, -1, 1]) i * (![(-1 : ℚ), -1, -1, 1]) i) = fun _ => (1 : ℚ) from by
        funext i; fin_cases i <;> norm_num)]
    exact Matrix.diagonal_one
  have hinv : inv4 (Matrix.diagonal ![(-1 : ℚ), -1, -1, 1]) =
      Matrix.diagonal ![(-1 : ℚ), -1, -1, 1] := inv4_eq_of_mul_eq_one hNN
  have hTB : Matrix.diagonal ![(-1 : ℚ), -1, -1, 1] * blender_to_colmap_matrix =
      Matrix.diagonal ![(-1 : ℚ), 1, 1, 1] := by
    rw [blender_to_colmap_matrix, Matrix.diagonal_mul_diagonal]
    exact congrArg Matrix.diagonal (by funext i; fin_cases i <;> norm_num)
  have hrot : rotOf (Matrix.diagonal ![(-1 : ℚ), 1, 1, 1]) = Matrix.diagonal ![(-1 : ℚ), 1, 1] := by
    ext i j
    fin_cases i <;> fin_cases j <;> rfl
  have htr : transOf (Matrix.diagonal ![(-1 : ℚ), 1, 1, 1]) = ![0, 0, 0] := by
    funext i
    fin_cases i <;> rfl
  constructor
  · simp only [compute_rig_config]
    rw [show selectRef [("Camera0", (1 : Mat4)), ("Camera1", Matrix.diagonal ![-1, 1, 1, 1])]
        "Camera0" = some "Camera0" from rfl]
    simp only [Option.map]
    simp only [rigBody]
    rw [show ([("Camera0", (1 : Mat4)),
        ("Camera1", Matrix.diagonal ![-1, 1, 1, 1])].map Prod.fst) = ["Camera0", "Camera1"] from rfl,
      hsort]
    simp only [List.map]
    rw [show lookupMat [("Camera0", (1 : Mat4)),
        ("Camera1", Matrix.diagonal ![-1, 1, 1, 1])] "Camera0" = (1 : Mat4) from rfl]
    rw [show lookupMat [("Camera0", (1 : Mat4)),
        ("Camera1", Matrix.diagonal ![-1, 1, 1, 1])] "Camera1" =
        Matrix.diagonal ![(-1 : ℚ), 1, 1, 1] from rfl]
    simp only [convert_world, one_mul]
    rw [hM1B, hinv, hTB]
    simp [hrot, htr]
  · rw [Matrix.det_diagonal, Fin.prod_univ_three]
    norm_num

/-- C4 amended: the rig derivation performs NO validity check on the
decomposed rotations.  On the domain where every converted camera
matrix is invertible — exactly where `np.linalg.inv` does not raise —
a non-empty mapping always yields a descriptor with one entry per
camera, whatever the geometry (improper, determinant −1 rotations
included; see the counterexample): no camera is ever excluded and no
warning is issued.  When instead the selected reference camera's
converted matrix is singular, `np.linalg.inv` raises `LinAlgError`
(already at line 72, whose result is never used) and no descriptor is
produced. -/
theorem C4_no_validation_inclusion_and_singular_error (folder pref : String)
    (cams : List (String × Mat4)) :
    (cams ≠ [] → (∀ n ∈ cams.map Prod.fst, (convert_world (lookupMat cams n)).det ≠ 0) →
      ∃ cfg, compute_rig_configE folder cams pref = Except.ok (some cfg) ∧
        cfg.cameras.length = cams.length) ∧
    (∀ r, selectRef cams pref = some r → (convert_world (lookupMat cams r)).det = 0 →
      compute_rig_configE folder cams pref = Except.error LinAlgError.singularMatrix) := by
  constructor
  · intro hne hall
    obtain ⟨r, hsel, hrmem⟩ := selectRef_mem cams pref hne
    refine ⟨rigBody folder cams r, ?_, ?_⟩
    · rw [compute_rig_configE_eq_ok folder pref cams hall, compute_rig_config, hsel]
      rfl
    · simp only [rigBody]
      rw [List.length_map, sortNames, (List.perm_insertionSort _ _).length_eq, List.length_map]
  · intro r hsel hsing
    have hmatch : np_linalg_inv (convert_world (lookupMat cams r)) =
        Except.error LinAlgError.singularMatrix := by
      rw [np_linalg_inv, if_pos hsing]
    simp only [compute_rig_configE, hsel, rigBodyE, hmatch, Except.map]

/-- The two converted matrices of the improper-rotation session are
invertible (nonzero determinant), so its rig derivation raises nothing. -/
theorem improper_session_dets_nonzero :
    ∀ n ∈ ([("Camera0", (1 : Mat4)),
        ("Camera1", Matrix.diagonal ![-1, 1, 1, 1])].map Prod.fst),
      (convert_world (lookupMat [("Camera0", (1 : Mat4)),
        ("Camera1", Matrix.diagonal ![-1, 1, 1, 1])] n)).det ≠ 0 := by
  have hB : blender_to_colmap_matrix.det = 1 := by
    rw [blender_to_colmap_matrix, Matrix.det_diagonal, Fin.prod_univ_four]
    norm_num
  intro n hn
  have hn' : n = "Camera0" ∨ n = "Camera1" := by simpa using hn
  rcases hn' with h | h
  · subst h
    rw [show lookupMat [("Camera0", (1 : Mat4)),
        ("Camera1", Matrix.diagonal ![-1, 1, 1, 1])] "Camera0" = (1 : Mat4) from rfl]
    simp only [convert_world]
    rw [Matrix.det_mul, Matrix.det_one, hB]
    norm_num
  · subst h
    rw [show lookupMat [("Camera0", (1 : Mat4)),
        ("Camera1", Matrix.diagonal ![-1, 1, 1, 1])] "Camera1" =
        Matrix.diagonal ![(-1 : ℚ), 1, 1, 1] from rfl]
    simp only [convert_world]
    rw [Matrix.det_mul, hB, Matrix.det_diagonal, Fin.prod_univ_four]
    norm_num

/-- The converted matrix of a zero `matrix_world` is singular. -/
theorem zero_session_det_zero :
    (convert_world (lookupMat [("Camera0", (0 : Mat4))] "Camera0")).det = 0 := by
  rw [show lookupMat [("Camera0", (0 : Mat4))] "Camera0" = (0 : Mat4) from rfl]
  simp only [convert_world]
  rw [zero_mul]
  exact Matrix.det_zero ⟨0⟩

/-- C4 amended witness: both sides at concrete sessions — the
improper-rotation session of the counterexample yields a two-entry
descriptor through the error-faithful pipeline, and a zero-matrix
session raises `LinAlgError`. -/
theorem C4_no_validation_inclusion_and_singular_error_witness :
    (∃ cfg, compute_rig_configE "s"
        [("Camera0", (1 : Mat4)), ("Camera1", Matrix.diagonal ![-1, 1, 1, 1])] "Camera0" =
        Except.ok (some cfg) ∧ cfg.cameras.length = 2) ∧
    compute_rig_configE "s" [("Camera0", (0 : Mat4))] "Camera0" =
      Except.error LinAlgError.singularMatrix :=
  ⟨(C4_no_validation_inclusion_and_singular_error "s" "Camera0"
      [("Camera0", (1 : Mat4)), ("Camera1", Matrix.diagonal ![-1, 1, 1, 1])]).1
    (List.cons_ne_nil _ _) improper_session_dets_nonzero,
   (C4_no_validation_inclusion_and_singular_error "s" "Camera0"
      [("Camera0", (0 : Mat4))]).2 "Camera0" rfl zero_session_det_zero⟩

/-! ### C8 — what the parser does and does not validate -/

/-- C8 counterexample: a document whose single camera entry carries a
`"matrix_world"` value that is NOT 4x4-shaped (a flat 3-element numeric
list).  The loader succeeds anyway — it performs no shape validation —
so the claim that parsing fails when an entry lacks a 4x4-shaped
transform is false. -/
theorem C8_no_shape_validation_cex :
    load_blender_cameras (some (Json.obj
        [("CamX", Json.obj [("matrix_world", Json.arr [Json.num 1, Json.num 2, Json.num 3])])])) =
      Except.ok [("CamX", Json.arr [Json.num 1, Json.num 2, Json.num 3])] ∧
    is4x4Shaped (Json.arr [Json.num 1, Json.num 2, Json.num 3]) = false := ⟨rfl, rfl⟩

/-- C8 amended: loading succeeds exactly when the document parses to an
object each of whose camera entries is itself an object carrying a
`"matrix_world"` key whose value `np.array` accepts (any homogeneous
nested value, whatever its shape); an unparseable document, a
non-object document, a non-object entry, a missing `"matrix_world"`
key, or a ragged `"matrix_world"` value (`ValueError` from `np.array`)
fails with `MalformedDocument`.  The 4x4 shape is NOT validated — see
the counterexample, where a flat 3-element list loads — nor is
orthonormality. -/
theorem C8_parse_failure_characterization (doc : Option Json) :
    exceptOk (load_blender_cameras doc) = true ↔
      ∃ entries, doc = some (Json.obj entries) ∧
        (entries.all fun p => entryLoads p.2) = true := by
  cases doc with
  | none => simp [load_blender_cameras, exceptOk]
  | some j =>
    cases j with
    | null => simp [load_blender_cameras, exceptOk]
    | bool b => simp [load_blender_cameras, exceptOk]
    | num q => simp [load_blender_cameras, exceptOk]
    | str s => simp [load_blender_cameras, exceptOk]
    | arr elems => simp [load_blender_cameras, exceptOk]
    | obj entries => simp [load_blender_cameras, loadEntries_isOk]

/-- C8 amended witness: the characterization applied to the concrete
homogeneous-but-non-4x4 document of the counterexample. -/
theorem C8_parse_failure_characterization_witness :
    exceptOk (load_blender_cameras (some (Json.obj
        [("CamX", Json.obj [("matrix_world", Json.arr [Json.num 1, Json.num 2, Json.num 3])])]))) = true :=
  (C8_parse_failure_characterization _).mpr
    ⟨[("CamX", Json.obj [("matrix_world", Json.arr [Json.num 1, Json.num 2, Json.num 3])])],
      rfl, rfl⟩

/-! ### C9 — the session scan -/

/-- C9 counterexample: two singleton-camera sessions `"a"` and `"b"`,
presented in the two possible enumeration orders.  The collected
descriptor lists follow the enumeration order in both runs — the scan
loop of `run` applies no sorting — so the output is NOT ordered by
session directory name independently of the filesystem's enumeration
order. -/
theorem C9_enumeration_order_cex :
    (scan_rig_configs [("b", some [("Camera0", (1 : Mat4))]),
        ("a", some [("Camera0", (1 : Mat4))])]).map
      (fun cfg => cfg.cameras.map fun e => e.image_pre) =
      [["b/Camera0/"], ["a/Camera0/"]] ∧
    (scan_rig_configs [("a", some [("Camera0", (1 : Mat4))]),
        ("b", some [("Camera0", (1 : Mat4))])]).map
      (fun cfg => cfg.cameras.map fun e => e.image_pre) =
      [["a/Camera0/"], ["b/Camera0/"]] := ⟨rfl, rfl⟩

/-- C9 amended: the scan skips a subdirectory lacking a pose document
(without affecting the rest of the run, and without raising), and it
collects descriptors in the enumeration order of the directory listing
(it distributes over concatenation); no sorting by name is applied. -/
theorem C9_scan_skips_and_keeps_enumeration_order (name : String)
    (dirsA dirsB dirs₁ dirs₂ : List (String × Option (List (String × Mat4)))) :
    scan_rig_configs (dirsA ++ (name, none) :: dirsB) = scan_rig_configs (dirsA ++ dirsB) ∧
    scan_rig_configs (dirs₁ ++ dirs₂) = scan_rig_configs dirs₁ ++ scan_rig_configs dirs₂ := by
  constructor
  · rw [scan_rig_configs, scan_rig_configs, List.filterMap_append, List.filterMap_append,
      List.filterMap_cons]
  · exact List.filterMap_append _ _ _

/-! ### C10 — the loader reads only the matrix_world field -/

/-- C10: the loaded camera poses depend only on each entry's
`"matrix_world"` field: two documents whose entries agree in name and
in `"matrix_world"` value — whatever their `lens`, `sensor_width`,
`sensor_height` or `location` fields — load to the same mapping. -/
theorem C10_loader_only_reads_matrix_world (entries₁ entries₂ : List (String × Json))
    (h : List.Forall₂ (fun p q => p.1 = q.1 ∧ matrixWorldOf p.2 = matrixWorldOf q.2)
      entries₁ entries₂) :
    load_blender_cameras (some (Json.obj entries₁)) =
      load_blender_cameras (some (Json.obj entries₂)) := by
  show loadEntries entries₁ = loadEntries entries₂
  induction h with
  | nil => rfl
  | cons hpq hrest ih =>
    obtain ⟨hname, hmw⟩ := hpq
    rw [loadEntries_cons, loadEntries_cons, hmw, hname, ih]

/-- C10 witness: two concrete one-camera documents differing only in
intrinsics and the redundant location field. -/
theorem C10_loader_only_reads_matrix_world_witness :
    load_blender_cameras (some (Json.obj [("Camera0", Json.obj
        [("matrix_world", Json.arr []), ("lens", Json.num 50)])])) =
      load_blender_cameras (some (Json.obj [("Camera0", Json.obj
        [("matrix_world", Json.arr []), ("lens", Json.num 35),
         ("sensor_width", Json.num 36), ("location", Json.arr [])])])) :=
  C10_loader_only_reads_matrix_world _ _ (List.Forall₂.cons ⟨rfl, rfl⟩ List.Forall₂.nil)

/-- C2 witness at a concrete transform. -/
theorem C2_conversion_is_right_flip_witness :
    convert_world (1 : Mat4) = (1 : Mat4) * Matrix.diagonal ![1, -1, -1, 1] ∧
    ∀ i j, convert_world (1 : Mat4) i j = (1 : Mat4) i j * (![(1 : ℚ), -1, -1, 1]) j :=
  C2_conversion_is_right_flip 1

/-- C6 witness at a concrete transform. -/
theorem C6_conversion_involution_witness :
    convert_world (convert_world (Matrix.diagonal ![2, 3, 4, 1])) = Matrix.diagonal ![2, 3, 4, 1] :=
  C6_conversion_involution (Matrix.diagonal ![2, 3, 4, 1])

/-- C9 amended witness at concrete directory lists. -/
theorem C9_scan_skips_and_keeps_enumeration_order_witness :
    scan_rig_configs ([("a", some [("Camera0", (1 : Mat4))])] ++ ("x", none) ::
        [("b", some [("Camera0", (1 : Mat4))])]) =
      scan_rig_configs ([("a", some [("Camera0", (1 : Mat4))])] ++
        [("b", some [("Camera0", (1 : Mat4))])]) ∧
    scan_rig_configs ([("a", some [("Camera0", (1 : Mat4))])] ++
        [("b", some [("Camera0", (1 : Mat4))])]) =
      scan_rig_configs [("a", some [("Camera0", (1 : Mat4))])] ++
        scan_rig_configs [("b", some [("Camera0", (1 : Mat4))])] :=
  C9_scan_skips_and_keeps_enumeration_order "x"
    [("a", some [("Camera0", (1 : Mat4))])] [("b", some [("Camera0", (1 : Mat4))])]
    [("a", some [("Camera0", (1 : Mat4))])] [("b", some [("Camera0", (1 : Mat4))])]
